import Mathlib

/-!
Verification of the retail-kpi-analytics pipeline.

Shallow embedding of the two Python components:
* `data/generate_synthetic_data.py` — the synthetic data generator
  (dimension tables date/store/product, fact tables transactions/labour/shrinkage);
* `python/load_to_database.py` — the CSV-to-SQLite loader.

Conventions of the embedding:
* The process-wide seeded PRNG (`np.random.seed(42)` / `random.seed(42)`) is
  modelled as an explicit record of deterministic draw streams (`Rng`),
  threaded by draw position.  `u` models `np.random.random`/`uniform` draws
  (values in `[0,1)`), `z` models standard-normal draws
  (`np.random.normal(m, s)` = `m + s * z`), `k` models the raw integer draws
  behind `np.random.randint`, `e` models standard-exponential draws
  (`np.random.exponential(s)` = `s * e`), and `s` models the index stream of
  `DataFrame.sample(..., random_state=42)`.  Each generator function reads its
  streams from position 0; the source shares one global generator, but every
  claim below is insensitive to the absolute positioning of draws.
* Python floats are modelled as rationals; `round(x, n)` is modelled as exact
  round-half-to-even at `n` decimal digits (`roundTo`).
* Dates are day offsets from `START_DATE`; calendar fields are recovered with
  the standard Gregorian civil-from-days algorithm.  CSV-only presentation
  fields (`month_name`, `day_name`, `date_key` strings, ...) are omitted.
-/

set_option maxRecDepth 4096

namespace RetailKPI

/-- Deterministic draw streams standing for the process-wide seeded PRNG. -/
structure Rng where
  u : ℕ → ℚ
  z : ℕ → ℚ
  k : ℕ → ℕ
  e : ℕ → ℚ
  s : ℕ → ℕ

/-- Round-half-to-even to an integer, the rounding used by Python `round`. -/
def rhe (q : ℚ) : ℤ :=
  let f := ⌊q⌋
  if q - f < 1/2 then f
  else if (1:ℚ)/2 < q - f then f + 1
  else if 2 ∣ f then f else f + 1

/-- Python `round(x, n)` on exact decimals. -/
def roundTo (n : ℕ) (q : ℚ) : ℚ := (rhe (q * 10 ^ n) : ℚ) / 10 ^ n

/-- `round(x, 2)`. -/
def round2 (q : ℚ) : ℚ := roundTo 2 q

/-- `round(x, 1)`. -/
def round1 (q : ℚ) : ℚ := roundTo 1 q

/-- Python `int(...)` on a float: truncation toward zero. -/
def truncQ (q : ℚ) : ℤ := q.num / (q.den : ℤ)

/-- `np.random.randint(lo, hi)`: uniform integer in `[lo, hi)`. -/
def randIntM (lo hi : ℕ) (r : Rng) (p : ℕ) : ℕ := lo + r.k p % (hi - lo)

/-- Inverse-CDF index selection used by `np.random.choice(..., p=ps)`. -/
def choiceIdx : List ℚ → ℚ → ℕ
  | [], _ => 0
  | p :: ps, u => if u < p then 0 else choiceIdx ps (u - p) + 1

/-- `np.random.choice(vals, p=ps)` for natural-number values. -/
def choiceVal (vals : List ℕ) (ps : List ℚ) (u : ℚ) : ℕ :=
  vals.getD (choiceIdx ps u) 0

/-- `days_from_civil`: days from 1970-01-01 to the given Gregorian date. -/
def daysFromCivil (y m d : ℤ) : ℤ :=
  let y := y - (if m ≤ 2 then 1 else 0)
  let era := (if 0 ≤ y then y else y - 399) / 400
  let yoe := y - era * 400
  let doy := (153 * (m + (if 2 < m then -3 else 9)) + 2) / 5 + d - 1
  let doe := yoe * 365 + yoe / 4 - yoe / 100 + doy
  era * 146097 + doe - 719468

/-- `civil_from_days`: Gregorian (year, month, day) of a day offset from 1970-01-01. -/
def civilFromDays (z : ℤ) : ℤ × ℤ × ℤ :=
  let z' := z + 719468
  let era := (if 0 ≤ z' then z' else z' - 146096) / 146097
  let doe := z' - era * 146097
  let yoe := (doe - doe / 1460 + doe / 36524 - doe / 146096) / 365
  let y := yoe + era * 400
  let doy := doe - (365 * yoe + yoe / 4 - yoe / 100)
  let mp := (5 * doy + 2) / 153
  let d := doy - (153 * mp + 2) / 5 + 1
  let m := mp + (if mp < 10 then 3 else -9)
  (y + (if m ≤ 2 then 1 else 0), m, d)

/-- Calendar month of a day offset from 1970-01-01. -/
def monthOf (z : ℤ) : ℤ := (civilFromDays z).2.1

/-- Calendar year of a day offset from 1970-01-01. -/
def yearOf (z : ℤ) : ℤ := (civilFromDays z).1

/-- Python `weekday()` (Monday = 0) of a day offset; 1970-01-01 was a Thursday. -/
def weekdayOf (z : ℤ) : ℤ := (z + 3) % 7

/-- The generator configuration: `N_STORES`, `N_PRODUCTS`, `N_DAYS`, `START_DATE`
(the latter as a day offset from 1970-01-01). -/
structure Config where
  nStores : ℕ
  nProducts : ℕ
  nDays : ℕ
  start : ℤ
deriving Repr, DecidableEq

/-- The configuration hard-coded in the source:
`N_STORES = 20`, `N_PRODUCTS = 500`, `N_DAYS = 730`, `START_DATE = 2023-01-01`. -/
def realCfg : Config := ⟨20, 500, 730, daysFromCivil 2023 1 1⟩

-- ── DIM: DATE ──

/-- One row of `dim_date` (presentation-string columns omitted). -/
structure DateRow where
  offset : ℕ
  year : ℤ
  month : ℤ
  dayOfWeek : ℤ
  fiscalWeek : ℕ
  fiscalYear : ℕ
deriving Repr, DecidableEq

/-- The `dim_date` row for day `i` of the horizon:
`fiscal_week = (d - START_DATE).days // 7 + 1`, `fiscal_year` by year lookup. -/
def dateRow (cfg : Config) (i : ℕ) : DateRow :=
  let z := cfg.start + i
  { offset := i
    year := yearOf z
    month := monthOf z
    dayOfWeek := weekdayOf z
    fiscalWeek := i / 7 + 1
    fiscalYear := if yearOf z = 2023 then 2023 else 2024 }

/-- `generate_dim_date`: one row per day of the horizon. -/
def generateDimDate (cfg : Config) : List DateRow :=
  (List.range cfg.nDays).map (dateRow cfg)

-- ── DIM: STORE ──

/-- One row of `dim_store`. -/
structure StoreRow where
  store_id : ℕ
  store_name : String
  region : String
  format : String
  size_sqft : ℕ
  manager_id : ℕ
  opening_date : String
  target_weekly_sales : ℕ
deriving Repr, DecidableEq

def regionsList : List String :=
  ["London", "South East", "Midlands", "North West", "Yorkshire",
   "Scotland", "Wales", "South West", "North East", "East Anglia"]

def formatsList : List String :=
  ["High Street", "Retail Park", "Superstore", "Local"]

/-- Zero-padded three-digit rendering used by `f'Store {i:03d}'`. -/
def pad3 (i : ℕ) : String :=
  if i < 10 then "00" ++ toString i
  else if i < 100 then "0" ++ toString i
  else toString i

/-- The `dim_store` row for store `i` (1-based); two integer draws per store. -/
def storeRow (r : Rng) (i : ℕ) : StoreRow :=
  { store_id := i
    store_name := "Store " ++ pad3 i
    region := regionsList.getD (i % regionsList.length) ""
    format := formatsList.getD (i % formatsList.length) ""
    size_sqft := 3000 + r.k (2 * (i - 1)) % 17000
    manager_id := i
    opening_date := "2015-01-01"
    target_weekly_sales := 80000 + r.k (2 * (i - 1) + 1) % 170000 }

/-- `generate_dim_store`: stores `1 .. N_STORES`. -/
def generateDimStore (cfg : Config) (r : Rng) : List StoreRow :=
  (List.range' 1 cfg.nStores).map (storeRow r)

-- ── DIM: PRODUCT ──

/-- One row of `dim_product`. -/
structure ProductRow where
  product_id : ℕ
  product_name : String
  category : String
  subcategory : String
  unit_price : ℚ
  cost_price : ℚ
  margin_band : String
  supplier_id : ℕ
  is_own_label : ℕ
deriving Repr, DecidableEq

/-- The 22 (category, subcategory) pairs of the source's `categories` dict,
flattened in iteration order. -/
def subcatsFlat : List (String × String) :=
  [("Frozen", "Ready Meals"), ("Frozen", "Ice Cream"), ("Frozen", "Vegetables"),
   ("Frozen", "Meat"),
   ("Grocery", "Tinned Goods"), ("Grocery", "Cereals"), ("Grocery", "Condiments"),
   ("Grocery", "Pasta"),
   ("Chilled", "Dairy"), ("Chilled", "Cooked Meats"), ("Chilled", "Salads"),
   ("Chilled", "Dips"),
   ("Bakery", "Bread"), ("Bakery", "Cakes"), ("Bakery", "Pastries"),
   ("Drinks", "Soft Drinks"), ("Drinks", "Juices"), ("Drinks", "Water"),
   ("Drinks", "Energy"),
   ("Household", "Cleaning"), ("Household", "Paper"), ("Household", "Laundry")]

/-- The `dim_product` row with id `pid`; four draws per product starting at `q`:
price ~ `uniform(0.49, 8.99)`, cost factor ~ `uniform(0.45, 0.70)`,
supplier ~ `randint(1, 50)`, own-label ~ `choice([0,1], p=[0.6,0.4])`. -/
def productRow (pid : ℕ) (cat subcat : String) (r : Rng) (q : ℕ) : ProductRow :=
  let price := round2 (49/100 + (85/10) * r.u q)
  { product_id := pid
    product_name := subcat ++ " Product " ++ toString pid
    category := cat
    subcategory := subcat
    unit_price := price
    cost_price := round2 (price * (45/100 + (1/4) * r.u (q + 1)))
    margin_band := if price < 2 then "Low" else if price < 5 then "Mid" else "High"
    supplier_id := 1 + r.k (q + 2) % 49
    is_own_label := choiceVal [0, 1] [6/10, 4/10] (r.u (q + 3)) }

/-- `generate_dim_product`: for each of the 22 subcategories, `N_PRODUCTS // 20`
products with sequential 1-based ids.  The nested source loops are flattened:
global product index `i` (0-based) belongs to subcategory `i / n` and consumes
draws `4*i .. 4*i+3`, exactly as in the sequential source iteration. -/
def generateDimProduct (cfg : Config) (r : Rng) : List ProductRow :=
  let n := cfg.nProducts / 20
  (List.range (subcatsFlat.length * n)).map fun i =>
    let cs := subcatsFlat.getD (i / n) ("", "")
    productRow (i + 1) cs.1 cs.2 r (4 * i)

-- ── store-day schedule shared by the fact generators ──

/-- The (day offset, store id) pairs iterated by every fact generator:
days outer, stores `1 .. N_STORES` inner, exactly the source's loop nest. -/
def storeDayUnits (cfg : Config) : List (ℕ × ℕ) :=
  (List.range cfg.nDays) ×ˢ (List.range' 1 cfg.nStores)

-- ── FACT: LABOUR ──

/-- One row of `fact_labour`. -/
structure LabourRow where
  store_id : ℕ
  shift_date : ℕ
  fiscal_week : ℕ
  contracted_hours : ℚ
  actual_hours : ℚ
  hourly_rate : ℚ
  total_labour_cost : ℚ
deriving Repr, DecidableEq

def defaultLabour : LabourRow := ⟨0, 0, 0, 0, 0, 0, 0⟩

/-- The `fact_labour` row for one store-day; three uniform draws starting at `pos`:
`contracted ~ uniform(40, 120)`, `actual = contracted * uniform(0.90, 1.15)`,
`hourly_rate ~ uniform(10.42, 13.50)`.  The stored hour/rate columns are the
rounded values, while `total_labour_cost` is computed from the raw values. -/
def labourRow (cfg : Config) (dOff sId : ℕ) (r : Rng) (pos : ℕ) : LabourRow :=
  let contracted := 40 + 80 * r.u pos
  let actual := contracted * (9/10 + (1/4) * r.u (pos + 1))
  let rate := 1042/100 + (308/100) * r.u (pos + 2)
  { store_id := sId
    shift_date := dOff
    fiscal_week := (dateRow cfg dOff).fiscalWeek
    contracted_hours := round1 contracted
    actual_hours := round1 actual
    hourly_rate := round2 rate
    total_labour_cost := round2 (actual * rate) }

/-- `generate_fact_labour`: one row per (day, store) unit; each row consumes
exactly three draws, so row `dOff * N_STORES + (sId - 1)` starts at three times
that index, as in the sequential source iteration. -/
def generateFactLabour (cfg : Config) (r : Rng) : List LabourRow :=
  (storeDayUnits cfg).map fun du =>
    labourRow cfg du.1 du.2 r (3 * (du.1 * cfg.nStores + (du.2 - 1)))

-- ── FACT: TRANSACTIONS ──

/-- One row of `fact_transactions`.  `transaction_id` holds the integer value
`tid_val`; the CSV renders it as `f'T{tid_val:08d}'`, an injective encoding. -/
structure TxnRow where
  transaction_id : ℤ
  store_id : ℕ
  product_id : ℕ
  transaction_date : ℕ
  transaction_hour : ℕ
  quantity : ℕ
  unit_price : ℚ
  net_sales_value : ℚ
  transaction_type : String
deriving Repr, DecidableEq

def defaultTxn : TxnRow := ⟨0, 0, 0, 0, 0, 0, 0, 0, ""⟩

def defaultProduct : ProductRow := ⟨0, "", "", "", 0, 0, "", 0, 0⟩

/-- `quantity ~ np.random.choice([1,1,1,2,2,3], p=[0.4,0.25,0.15,0.1,0.07,0.03])`. -/
def quantityVals : List ℕ := [1, 1, 1, 2, 2, 3]

def quantityProbs : List ℚ := [4/10, 25/100, 15/100, 1/10, 7/100, 3/100]

/-- `transaction_hour ~ np.random.choice(range(7, 22), p=...)`. -/
def hourVals : List ℕ := List.range' 7 15

def hourProbs : List ℚ :=
  [2/100, 4/100, 8/100, 10/100, 12/100, 12/100, 11/100, 10/100, 9/100, 8/100,
   6/100, 4/100, 3/100, 1/100, 1/100]

/-- The product-id draw of a transaction:
`np.random.randint(1, len(dim_product) + 1)` — bounded by the actual product
table length, not by `N_PRODUCTS`. -/
def drawProductId (products : List ProductRow) (r : Rng) (p : ℕ) : ℕ :=
  randIntM 1 (products.length + 1) r p

/-- Generate one transaction.  Draw order, from `pos`: product id, quantity,
orphan check (`random() < 0.02` rewrites `product_id` to the sentinel 9999),
duplicate check (`random() < 0.01` rewrites the id to `tid - randint(1, 10)`),
then the hour.  The unit price is taken from the product row looked up with the
pre-rewrite id, and `net_sales_value = round(quantity * unit_price, 2)`.
Returns the row and the next draw position. -/
def genTxn (products : List ProductRow) (sId dOff : ℕ) (r : Rng) (pos tid : ℕ) :
    TxnRow × ℕ :=
  let pid0 := drawProductId products r pos
  let product := (products.find? fun q => q.product_id == pid0).getD defaultProduct
  let qty := choiceVal quantityVals quantityProbs (r.u (pos + 1))
  let pid := if r.u (pos + 2) < 2/100 then 9999 else pid0
  let tidVal : ℤ :=
    if r.u (pos + 3) < 1/100 then (tid : ℤ) - (randIntM 1 10 r (pos + 4) : ℤ)
    else (tid : ℤ)
  let pos' := if r.u (pos + 3) < 1/100 then pos + 5 else pos + 4
  (⟨tidVal, sId, pid, dOff, choiceVal hourVals hourProbs (r.u pos'), qty,
    product.unit_price, round2 ((qty : ℚ) * product.unit_price), "SALE"⟩,
   pos' + 1)

/-- Generate `n` transactions for one store-day, threading draw position;
the transaction counter `tid` advances by one per transaction. -/
def genTxns (products : List ProductRow) (sId dOff : ℕ) (r : Rng) :
    ℕ → ℕ → ℕ → List TxnRow × ℕ
  | 0, pos, _tid => ([], pos)
  | n + 1, pos, tid =>
    let rp := genTxn products sId dOff r pos tid
    let rest := genTxns products sId dOff r n rp.2 (tid + 1)
    (rp.1 :: rest.1, rest.2)

/-- The seasonal multiplier of a day: 1.4 in December, 0.85 in July/August,
with a further 1.15 factor on Friday/Saturday. -/
def seasonalFactor (cfg : Config) (dOff : ℕ) : ℚ :=
  let m := monthOf (cfg.start + dOff)
  let w := weekdayOf (cfg.start + dOff)
  let s1 : ℚ := if m = 12 then 14/10 else 1
  let s2 : ℚ := if m = 7 ∨ m = 8 then 85/100 else s1
  if w = 4 ∨ w = 5 then s2 * (115/100) else s2

/-- Transactions per store-day:
`int(np.random.normal(150, 30) * seasonal)` clamped to `[50, 350]`. -/
def unitTxnCount (cfg : Config) (r : Rng) (dOff pos : ℕ) : ℕ :=
  (max 50 (min 350 (truncQ ((150 + 30 * r.z pos) * seasonalFactor cfg dOff)))).toNat

/-- The transaction loop over the store-day schedule, threading draw position
and the transaction counter. -/
def genUnits (products : List ProductRow) (cfg : Config) (r : Rng) :
    List (ℕ × ℕ) → ℕ → ℕ → List TxnRow
  | [], _, _ => []
  | du :: rest, pos, tid =>
    let n := unitTxnCount cfg r du.1 pos
    let chunk := genTxns products du.2 du.1 r n (pos + 1) tid
    chunk.1 ++ genUnits products cfg r rest chunk.2 (tid + n)

/-- All transactions generated by the source loops, before sampling;
the counter starts at `tid = 1`. -/
def generateFactTransactionsRaw (cfg : Config) (r : Rng) : List TxnRow :=
  genUnits (generateDimProduct cfg r) cfg r (storeDayUnits cfg) 0 1

def sampleCap : ℕ := 200000

/-- `generate_fact_transactions`: the raw list, sampled down to `sampleCap`
rows when it is larger (`df.sample(200000, random_state=42)`; the seeded
selection is modelled by the `s` index stream). -/
def generateFactTransactions (cfg : Config) (r : Rng) : List TxnRow :=
  let raw := generateFactTransactionsRaw cfg r
  if raw.length > sampleCap then
    (List.range sampleCap).map fun i => raw.getD (r.s i % raw.length) defaultTxn
  else raw

-- ── FACT: SHRINKAGE ──

/-- One row of `fact_shrinkage`. -/
structure ShrinkRow where
  store_id : ℕ
  shrinkage_date : ℕ
  fiscal_week : ℕ
  cause_code : String
  category : String
  shrinkage_value : ℚ
deriving Repr, DecidableEq

def causeCodes : List String :=
  ["SHOPLIFTING", "ADMIN_ERROR", "SUPPLIER_FRAUD", "STAFF_THEFT", "WASTAGE"]

def causeProbs : List ℚ := [45/100, 2/10, 1/10, 1/10, 15/100]

def shrinkCategories : List String :=
  ["Frozen", "Grocery", "Chilled", "Bakery", "Drinks", "Household"]

/-- The shrinkage loop: each store-day emits a row with probability 0.3;
`base ~ exponential(50)`, amplified 5-fold with probability 0.05; cause by
weighted choice, category by uniform choice. -/
def genShrink (cfg : Config) (r : Rng) : List (ℕ × ℕ) → ℕ → List ShrinkRow
  | [], _ => []
  | du :: rest, pos =>
    if r.u pos < 3/10 then
      let base := 50 * r.e (pos + 1)
      let value := if r.u (pos + 2) < 5/100 then base * 5 else base
      { store_id := du.2
        shrinkage_date := du.1
        fiscal_week := (dateRow cfg du.1).fiscalWeek
        cause_code := causeCodes.getD (choiceIdx causeProbs (r.u (pos + 3))) ""
        category := shrinkCategories.getD (r.k (pos + 4) % shrinkCategories.length) ""
        shrinkage_value := round2 value } :: genShrink cfg r rest (pos + 5)
    else genShrink cfg r rest (pos + 1)

/-- `generate_fact_shrinkage`. -/
def generateFactShrinkage (cfg : Config) (r : Rng) : List ShrinkRow :=
  genShrink cfg r (storeDayUnits cfg) 0

-- ── MAIN: the generator entry point ──

/-- The output of one generator run: the six row sets and the files written
(name and data row count of each). -/
structure RunOutput where
  dimDate : List DateRow
  dimStore : List StoreRow
  dimProduct : List ProductRow
  factTransactions : List TxnRow
  factLabour : List LabourRow
  factShrinkage : List ShrinkRow
  files : List (String × ℕ)
deriving Repr, DecidableEq

/-- The `__main__` block of `generate_synthetic_data.py`: generate the six
tables and write each to its CSV file.  There is no configuration validation
and no abort path. -/
def runMain (cfg : Config) (r : Rng) : RunOutput :=
  let dd := generateDimDate cfg
  let ds := generateDimStore cfg r
  let dp := generateDimProduct cfg r
  let ft := generateFactTransactions cfg r
  let fl := generateFactLabour cfg r
  let fsh := generateFactShrinkage cfg r
  { dimDate := dd, dimStore := ds, dimProduct := dp,
    factTransactions := ft, factLabour := fl, factShrinkage := fsh
    files := [("dim_date.csv", dd.length), ("dim_store.csv", ds.length),
              ("dim_product.csv", dp.length), ("fact_transactions.csv", ft.length),
              ("fact_labour.csv", fl.length), ("fact_shrinkage.csv", fsh.length)] }

/-- A concrete deterministic stream family standing for seeding the global
PRNG (`np.random.seed(seed)` / `random.seed(seed)`).  The Mersenne-Twister
internals are library code, not repository code; what matters for the
reproducibility claim is that the streams are a function of the seed alone. -/
def lcg (a i : ℕ) : ℕ := (a * 2862933555777941757 + i * 3037000493 + 1) % 4294967296

def mkRng (seed : ℕ) : Rng :=
  { u := fun i => (lcg seed i : ℚ) / 4294967296
    z := fun i => ((lcg (seed + 1) i : ℚ) / 4294967296) * 8 - 4
    k := fun i => lcg (seed + 2) i
    e := fun i => (lcg (seed + 3) i : ℚ) / 4294967296
    s := fun i => lcg (seed + 4) i }

-- ── LOADER: load_to_database.py ──

/-- One entry of the loader's `tables` list: source file, target table,
target schema. -/
structure LoadEntry where
  path : String
  table : String
  schema : String
deriving Repr, DecidableEq

/-- A CSV file's data rows (cells as strings). -/
abbrev Csv := List (List String)

/-- The file system visible to the loader. -/
abbrev FileSystem := String → Option Csv

/-- The SQLite database: contents per (schema, table) key. -/
abbrev Database := String × String → Option Csv

/-- The loader's declared table mappings, in source order. -/
def declaredTables : List LoadEntry :=
  [⟨"data/generated/dim_date.csv", "dim_date", "bronze"⟩,
   ⟨"data/generated/dim_store.csv", "dim_store", "bronze"⟩,
   ⟨"data/generated/dim_product.csv", "dim_product", "bronze"⟩,
   ⟨"data/generated/fact_transactions.csv", "fact_transactions", "bronze"⟩,
   ⟨"data/generated/fact_labour.csv", "fact_labour", "bronze"⟩,
   ⟨"data/generated/fact_shrinkage.csv", "fact_shrinkage", "bronze"⟩]

def entryKey (e : LoadEntry) : String × String := (e.schema, e.table)

/-- `df.to_sql(..., if_exists='replace')`: point update of the database. -/
def dbUpdate (db : Database) (key : String × String) (t : Csv) : Database :=
  fun k => if k = key then some t else db k

def loadedMsg (e : LoadEntry) (n : ℕ) : String :=
  "  Loaded " ++ toString n ++ " rows -> " ++ e.schema ++ "." ++ e.table

def warnMsg (p : String) : String :=
  "  WARNING: " ++ p ++ " not found - run generate_synthetic_data.py first"

/-- The loader's running state: database, running row total, console messages. -/
structure LoaderState where
  db : Database
  total : ℕ
  messages : List String

/-- One iteration of the loader's `for` loop: if the source file exists,
`load_table` replaces the target table and the row count is added to the
running total; otherwise a warning is printed and the entry is skipped. -/
def loadStep (fs : FileSystem) (st : LoaderState) (e : LoadEntry) : LoaderState :=
  match fs e.path with
  | some t =>
    { db := dbUpdate st.db (entryKey e) t
      total := st.total + t.length
      messages := st.messages ++ [loadedMsg e t.length] }
  | none =>
    { st with messages := st.messages ++ [warnMsg e.path] }

def runLoaderFrom (fs : FileSystem) (st : LoaderState) (es : List LoadEntry) :
    LoaderState :=
  es.foldl (loadStep fs) st

/-- `main()` of `load_to_database.py`. -/
def runLoader (fs : FileSystem) (db : Database) : LoaderState :=
  runLoaderFrom fs ⟨db, 0, []⟩ declaredTables

/-- The database after one loader run. -/
def runLoaderDb (fs : FileSystem) (db : Database) : Database :=
  (runLoader fs db).db

/-- The console message one loader iteration produces for an entry. -/
def msgOf (fs : FileSystem) (e : LoadEntry) : String :=
  match fs e.path with
  | some t => loadedMsg e t.length
  | none => warnMsg e.path

/-- The row-count contribution of an entry to the running total. -/
def rowsOf (fs : FileSystem) (e : LoadEntry) : ℕ :=
  match fs e.path with
  | some t => t.length
  | none => 0

/-- The last table written to key `k` while processing the entries in order
(later entries override earlier ones; entries with a missing file write
nothing). -/
def lastWrite (fs : FileSystem) : List LoadEntry → String × String → Option Csv
  | [], _ => none
  | e :: es, k =>
    match lastWrite fs es k with
    | some t => some t
    | none => if k = entryKey e then fs e.path else none

/-- A file system holding only the date-dimension CSV. -/
def fsOneFile : FileSystem := fun p =>
  if p = "data/generated/dim_date.csv" then some [["20230101", "2023-01-01"]]
  else none

/-- The empty database. -/
def dbEmpty : Database := fun _ => none

-- ── Concrete instances used by witnesses and counterexamples ──

/-- A small configuration: 1 store, 20 products, 1 day, the real start date. -/
def cfgOne : Config := ⟨1, 20, 1, daysFromCivil 2023 1 1⟩

/-- The degenerate configuration with all counts zero. -/
def cfgZero : Config := ⟨0, 0, 0, daysFromCivil 2023 1 1⟩

/-- The all-zero draw streams. -/
def zeroRng : Rng := ⟨fun _ => 0, fun _ => 0, fun _ => 0, fun _ => 0, fun _ => 0⟩

/-- Streams whose normal draws are −4, so every store-day volume clamps to the
floor of 50 transactions. -/
def smallRng : Rng := { zeroRng with z := fun _ => -4 }

/-- Streams realising a labour row whose cost, recomputed from the rounded
columns, differs from the stored cost: `contracted = 50.06`, factor `1.0`,
`rate = 10.444`. -/
def labourRng : Rng :=
  { zeroRng with
    u := fun p => if p = 0 then 503/4000 else if p = 1 then 2/5
                  else if p = 2 then 3/385 else 0 }

/-- The single labour row generated under `cfgOne` and `labourRng`:
raw actual hours 50.06, raw rate 10.444, stored rounded columns 50.1 and
10.44, stored cost `round(50.06 * 10.444, 2) = 522.83`. -/
def lrowC5 : LabourRow := ⟨1, 0, 1, 501/10, 501/10, 261/25, 52283/100⟩

/-- The id discipline of generated transactions: the transaction generated at
counter value `t` keeps id `t`, unless the duplicate branch rewrote it to
`t - k` for some `k ∈ [1, 9]`. -/
def TidOk (t : ℕ) (row : TxnRow) : Prop :=
  row.transaction_id = (t : ℤ)
    ∨ ∃ k : ℕ, 1 ≤ k ∧ k ≤ 9 ∧ row.transaction_id = (t : ℤ) - k

-- ── Supporting lemmas ──

/-- The id column of a generated transaction, by definition. -/
lemma genTxn_id (products : List ProductRow) (sId dOff : ℕ) (r : Rng) (pos tid : ℕ) :
    ((genTxn products sId dOff r pos tid).1).transaction_id
      = if r.u (pos + 3) < 1/100 then (tid : ℤ) - (randIntM 1 10 r (pos + 4) : ℤ)
        else (tid : ℤ) := rfl

/-- Every generated transaction satisfies the net-sales invariant by
construction. -/
lemma genTxn_net (products : List ProductRow) (sId dOff : ℕ) (r : Rng) (pos tid : ℕ) :
    ((genTxn products sId dOff r pos tid).1).net_sales_value
      = round2 ((((genTxn products sId dOff r pos tid).1).quantity : ℚ)
          * ((genTxn products sId dOff r pos tid).1).unit_price) := rfl

/-- Every generated transaction satisfies the id discipline. -/
lemma genTxn_tidOk (products : List ProductRow) (sId dOff : ℕ) (r : Rng) (pos tid : ℕ) :
    TidOk tid (genTxn products sId dOff r pos tid).1 := by
  rw [TidOk, genTxn_id]
  by_cases hc : r.u (pos + 3) < 1/100
  · rw [if_pos hc]
    refine Or.inr ⟨1 + r.k (pos + 4) % 9, by omega, ?_, ?_⟩
    · have := Nat.mod_lt (r.k (pos + 4)) (show 0 < 9 by norm_num)
      omega
    · rw [randIntM]
  · rw [if_neg hc]
    exact Or.inl rfl

lemma genTxns_length (products : List ProductRow) (sId dOff : ℕ) (r : Rng) :
    ∀ n pos tid, ((genTxns products sId dOff r n pos tid).1).length = n := by
  intro n
  induction n with
  | zero => intro pos tid; rfl
  | succ m ih => intro pos tid; simp [genTxns, ih]

/-- Every row of a store-day chunk is some `genTxn` output. -/
lemma mem_genTxns (products : List ProductRow) (sId dOff : ℕ) (r : Rng) :
    ∀ n pos tid row, row ∈ (genTxns products sId dOff r n pos tid).1 →
      ∃ p t, row = (genTxn products sId dOff r p t).1 := by
  intro n
  induction n with
  | zero => intro pos tid row h; simp [genTxns] at h
  | succ m ih =>
    intro pos tid row h
    simp only [genTxns, List.mem_cons] at h
    rcases h with h | h
    · exact ⟨pos, tid, h⟩
    · exact ih _ _ row h

/-- Chunk rows satisfy the id discipline at their own counter values. -/
lemma genTxns_tidOk (products : List ProductRow) (sId dOff : ℕ) (r : Rng) :
    ∀ n pos tid i, i < n →
      TidOk (tid + i) (((genTxns products sId dOff r n pos tid).1).getD i defaultTxn) := by
  intro n
  induction n with
  | zero => intro pos tid i hi; omega
  | succ m ih =>
    intro pos tid i hi
    match i with
    | 0 => simpa [genTxns] using genTxn_tidOk products sId dOff r pos tid
    | j + 1 =>
      have h := ih (genTxn products sId dOff r pos tid).2 (tid + 1) j (by omega)
      simpa [genTxns, Nat.add_assoc, Nat.add_comm 1 j] using h

/-- Every row of the transaction loop is some `genTxn` output. -/
lemma mem_genUnits (products : List ProductRow) (cfg : Config) (r : Rng) :
    ∀ units pos tid row, row ∈ genUnits products cfg r units pos tid →
      ∃ s d p t, row = (genTxn products s d r p t).1 := by
  intro units
  induction units with
  | nil => intro pos tid row h; simp [genUnits] at h
  | cons du rest ih =>
    intro pos tid row h
    simp only [genUnits, List.mem_append] at h
    rcases h with h | h
    · obtain ⟨p, t, hpt⟩ := mem_genTxns products du.2 du.1 r _ _ _ row h
      exact ⟨du.2, du.1, p, t, hpt⟩
    · exact ih _ _ row h

/-- Rows of the transaction loop satisfy the id discipline at the counter
value matching their global index. -/
lemma genUnits_tidOk (products : List ProductRow) (cfg : Config) (r : Rng) :
    ∀ units pos tid i, i < (genUnits products cfg r units pos tid).length →
      TidOk (tid + i) ((genUnits products cfg r units pos tid).getD i defaultTxn) := by
  intro units
  induction units with
  | nil => intro pos tid i hi; simp [genUnits] at hi
  | cons du rest ih =>
    intro pos tid i hi
    simp only [genUnits] at hi ⊢
    set n := unitTxnCount cfg r du.1 pos with hn
    have hchunk : ((genTxns products du.2 du.1 r n (pos + 1) tid).1).length = n :=
      genTxns_length products du.2 du.1 r n (pos + 1) tid
    by_cases hin : i < n
    · rw [List.getD_eq_getElem?_getD, List.getElem?_append_left (by omega),
        ← List.getD_eq_getElem?_getD]
      exact genTxns_tidOk products du.2 du.1 r n (pos + 1) tid i hin
    · rw [List.length_append, hchunk] at hi
      rw [List.getD_eq_getElem?_getD, List.getElem?_append_right (by omega), hchunk,
        ← List.getD_eq_getElem?_getD]
      have h := ih (genTxns products du.2 du.1 r n (pos + 1) tid).2 (tid + n) (i - n)
        (by omega)
      have harith : tid + n + (i - n) = tid + i := by omega
      rwa [harith] at h

/-- The `i`-th generated transaction (0-based, before sampling) was generated
at counter value `1 + i` and satisfies the id discipline there. -/
lemma raw_tidOk (cfg : Config) (r : Rng) (i : ℕ)
    (h : i < (generateFactTransactionsRaw cfg r).length) :
    TidOk (1 + i) ((generateFactTransactionsRaw cfg r).getD i defaultTxn) :=
  genUnits_tidOk (generateDimProduct cfg r) cfg r (storeDayUnits cfg) 0 1 i h

/-- Sampling only selects rows of the raw list. -/
lemma mem_of_sampled (cfg : Config) (r : Rng) (row : TxnRow)
    (h : row ∈ generateFactTransactions cfg r) :
    row ∈ generateFactTransactionsRaw cfg r := by
  unfold generateFactTransactions at h
  dsimp only at h
  split at h
  · next hlen =>
    obtain ⟨i, -, rfl⟩ := List.mem_map.mp h
    have hidx : r.s i % (generateFactTransactionsRaw cfg r).length
        < (generateFactTransactionsRaw cfg r).length := by
      apply Nat.mod_lt
      omega
    rw [List.getD_eq_getElem?_getD, List.getElem?_eq_getElem hidx]
    exact List.getElem_mem hidx
  · exact h

/-- The (shift_date, store_id) pairs of the labour table are exactly the
store-day schedule. -/
lemma labour_pairs (cfg : Config) (r : Rng) :
    (generateFactLabour cfg r).map (fun row => (row.shift_date, row.store_id))
      = storeDayUnits cfg := by
  unfold generateFactLabour
  rw [List.map_map]
  have h : ((fun row : LabourRow => (row.shift_date, row.store_id)) ∘ fun du : ℕ × ℕ =>
      labourRow cfg du.1 du.2 r (3 * (du.1 * cfg.nStores + (du.2 - 1))))
      = fun du : ℕ × ℕ => (du.1, du.2) := rfl
  rw [h]
  simp

-- ── C1 ──

/-- Claim C1: for a fixed seed and fixed configuration, two runs of the
generator produce identical row sets for all six tables and identical output
files: the embedded generator is a deterministic function of the seed and the
configuration. -/
theorem c1_generator_deterministic (cfg : Config) (seed₁ seed₂ : ℕ)
    (h : seed₁ = seed₂) :
    runMain cfg (mkRng seed₁) = runMain cfg (mkRng seed₂) := by
  rw [h]

theorem c1_generator_deterministic_witness :
    (42 = 42) ∧ runMain cfgOne (mkRng 42) = runMain cfgOne (mkRng 42) :=
  ⟨rfl, c1_generator_deterministic cfgOne 42 42 rfl⟩

-- ── C2 ──

/-- Claim C2 counterexample: the first row of the date dimension has
`offset = 0` but `fiscal_week = 1`, not `0 / 7 = 0`: the code computes
`(d - START_DATE).days // 7 + 1`, so the claimed formula
`fiscal_week = days-since-start // 7` fails on the very first day. -/
theorem c2_counterexample :
    dateRow realCfg 0 ∈ generateDimDate realCfg
      ∧ (dateRow realCfg 0).fiscalWeek ≠ (dateRow realCfg 0).offset / 7 := by
  constructor
  · exact List.mem_map_of_mem _ (List.mem_range.mpr (by norm_num [realCfg]))
  · decide

/-- Claim C2 (amended): for every row of the date dimension, the fiscal_week
field equals floor of (days since the configured start date divided by 7)
**plus one**; in particular the first day's fiscal week is 1. -/
theorem c2_fiscal_week (cfg : Config) (row : DateRow)
    (h : row ∈ generateDimDate cfg) :
    row.fiscalWeek = row.offset / 7 + 1 ∧ (row.offset = 0 → row.fiscalWeek = 1) := by
  unfold generateDimDate at h
  obtain ⟨i, -, rfl⟩ := List.mem_map.mp h
  refine ⟨rfl, fun h0 => ?_⟩
  simp only [dateRow] at h0 ⊢
  omega

theorem c2_fiscal_week_witness :
    (dateRow realCfg 0).fiscalWeek = (dateRow realCfg 0).offset / 7 + 1 :=
  (c2_fiscal_week realCfg (dateRow realCfg 0)
    (List.mem_map_of_mem _ (List.mem_range.mpr (by norm_num [realCfg])))).1

-- ── C3 ──

/-- Claim C3: with `N_STORES = 20` and `N_DAYS = 730`, the labour fact table
contains exactly 14600 rows, one per (store, day) pair: no store-day is
skipped (every pair occurs) or repeated (the pairs are nodup). -/
theorem c3_labour_row_count (r : Rng) :
    (generateFactLabour realCfg r).length = 14600
      ∧ ((generateFactLabour realCfg r).map
          (fun row => (row.shift_date, row.store_id))).Nodup
      ∧ (∀ d s, d < 730 → 1 ≤ s → s ≤ 20 →
          (d, s) ∈ (generateFactLabour realCfg r).map
            (fun row => (row.shift_date, row.store_id))) := by
  refine ⟨?_, ?_, ?_⟩
  · have h := congrArg List.length (labour_pairs realCfg r)
    rw [List.length_map] at h
    rw [h]
    simp [storeDayUnits, List.length_product, realCfg]
  · rw [labour_pairs]
    exact List.Nodup.product (List.nodup_range _) (List.nodup_range' _ _)
  · intro d s hd hs1 hs2
    rw [labour_pairs]
    refine List.mem_product.mpr ⟨List.mem_range.mpr ?_, List.mem_range'_1.mpr ⟨hs1, ?_⟩⟩
    · simpa [realCfg] using hd
    · simp [realCfg]; omega

theorem c3_labour_row_count_witness :
    (3, 5) ∈ (generateFactLabour realCfg zeroRng).map
      (fun row => (row.shift_date, row.store_id)) :=
  (c3_labour_row_count zeroRng).2.2 3 5 (by norm_num) (by norm_num) (by norm_num)

-- ── C5 ──

/-- Under `cfgOne` and `labourRng` the labour table is the single row
`lrowC5`. -/
lemma labour_list_eval : generateFactLabour cfgOne labourRng = [lrowC5] := by
  have h : storeDayUnits cfgOne = [(0, 1)] := by decide
  unfold generateFactLabour
  rw [h]
  simp only [List.map_cons, List.map_nil, List.cons.injEq, and_true]
  unfold labourRow lrowC5
  norm_num [labourRng, zeroRng, cfgOne, LabourRow.mk.injEq, round1, round2,
    roundTo, rhe, dateRow]

/-- Claim C5 counterexample: a labour row whose stored
`total_labour_cost` (522.83, from the unrounded hours and rate) differs from
`round2(actual_hours * hourly_rate)` (50.1 × 10.44 = 523.044 → 523.04)
recomputed from the row's own rounded columns. -/
theorem c5_counterexample :
    ¬ (∀ (cfg : Config) (r : Rng) (row : LabourRow),
        row ∈ generateFactLabour cfg r →
        row.total_labour_cost = round2 (row.actual_hours * row.hourly_rate)) := by
  intro hcl
  have h := hcl cfgOne labourRng lrowC5
    (by rw [labour_list_eval]; exact List.mem_singleton_self _)
  have hne : lrowC5.total_labour_cost ≠ round2 (lrowC5.actual_hours * lrowC5.hourly_rate) := by
    norm_num [lrowC5, round2, roundTo, rhe]
  exact hne h

/-- Claim C5 (amended): for every labour row there are raw draws
`a` (actual hours) and `rate` such that the stored `actual_hours` is
`round(a, 1)`, the stored `hourly_rate` is `round(rate, 2)`, and
`total_labour_cost = round(a * rate, 2)` — the cost is derived from the raw
values before rounding, so it can differ from the product of the stored
(rounded) columns. -/
theorem c5_labour_cost (cfg : Config) (r : Rng) (row : LabourRow)
    (h : row ∈ generateFactLabour cfg r) :
    ∃ a rate : ℚ, row.actual_hours = round1 a ∧ row.hourly_rate = round2 rate
      ∧ row.total_labour_cost = round2 (a * rate) := by
  unfold generateFactLabour at h
  obtain ⟨du, -, rfl⟩ := List.mem_map.mp h
  exact ⟨_, _, rfl, rfl, rfl⟩

theorem c5_labour_cost_witness :
    ∃ a rate : ℚ, lrowC5.actual_hours = round1 a ∧ lrowC5.hourly_rate = round2 rate
      ∧ lrowC5.total_labour_cost = round2 (a * rate) :=
  c5_labour_cost cfgOne labourRng lrowC5
    (by rw [labour_list_eval]; exact List.mem_singleton_self _)

-- ── C7 ──

/-- Claim C7 counterexample: with every count zero (an invalid configuration),
the generator does not abort: it runs to completion and still writes all six
output files (each with zero data rows). -/
theorem c7_counterexample :
    ¬ (∀ (cfg : Config) (r : Rng), (cfg.nDays = 0 ∨ cfg.nStores = 0) →
        (runMain cfg r).files = []) := by
  intro hcl
  have h := hcl cfgZero zeroRng (Or.inl rfl)
  exact absurd h (by decide)

/-- Claim C7 (amended): the generator performs no configuration validation and
has no abort path: for every configuration it completes and writes the six
output files; with `N_DAYS = 0` the date-driven tables are empty, and with
`N_STORES = 0` the store-driven tables are empty — empty output rather than an
error. -/
theorem c7_no_config_validation (cfg : Config) (r : Rng) :
    ((runMain cfg r).files.map Prod.fst
        = ["dim_date.csv", "dim_store.csv", "dim_product.csv",
           "fact_transactions.csv", "fact_labour.csv", "fact_shrinkage.csv"])
    ∧ (cfg.nDays = 0 →
        (runMain cfg r).dimDate = [] ∧ (runMain cfg r).factTransactions = []
          ∧ (runMain cfg r).factLabour = [] ∧ (runMain cfg r).factShrinkage = [])
    ∧ (cfg.nStores = 0 →
        (runMain cfg r).dimStore = [] ∧ (runMain cfg r).factTransactions = []
          ∧ (runMain cfg r).factLabour = []) := by
  refine ⟨rfl, fun h0 => ?_, fun h0 => ?_⟩
  · have hu : storeDayUnits cfg = [] := by
      simp [storeDayUnits, h0]
    refine ⟨?_, ?_, ?_, ?_⟩
    · simp [runMain, generateDimDate, h0]
    · simp [runMain, generateFactTransactions, generateFactTransactionsRaw, hu,
        genUnits, sampleCap]
    · simp [runMain, generateFactLabour, hu]
    · simp [runMain, generateFactShrinkage, hu, genShrink]
  · have hu : storeDayUnits cfg = [] := by
      simp [storeDayUnits, h0]
    refine ⟨?_, ?_, ?_⟩
    · simp [runMain, generateDimStore, h0]
    · simp [runMain, generateFactTransactions, generateFactTransactionsRaw, hu,
        genUnits, sampleCap]
    · simp [runMain, generateFactLabour, hu]

theorem c7_no_config_validation_witness :
    (runMain cfgZero zeroRng).dimDate = []
      ∧ (runMain cfgZero zeroRng).factTransactions = []
      ∧ (runMain cfgZero zeroRng).dimStore = []
      ∧ (runMain cfgZero zeroRng).files.map Prod.fst
        = ["dim_date.csv", "dim_store.csv", "dim_product.csv",
           "fact_transactions.csv", "fact_labour.csv", "fact_shrinkage.csv"] := by
  have h := c7_no_config_validation cfgZero zeroRng
  exact ⟨(h.2.1 rfl).1, (h.2.1 rfl).2.1, (h.2.2 rfl).1, h.1⟩

-- ── Concrete evaluation lemmas at `cfgOne` / `smallRng` ──

lemma storeDayUnits_one : storeDayUnits cfgOne = [(0, 1)] := by decide

lemma seasonal_one : seasonalFactor cfgOne 0 = 1 := by
  unfold seasonalFactor
  have hm : monthOf (cfgOne.start + (0 : ℕ)) = 1 := by decide
  have hw : weekdayOf (cfgOne.start + (0 : ℕ)) = 6 := by decide
  rw [hm, hw]
  norm_num

lemma count_one : unitTxnCount cfgOne smallRng 0 0 = 50 := by
  unfold unitTxnCount
  rw [seasonal_one]
  have hz : smallRng.z 0 = -4 := rfl
  rw [hz]
  have h30 : ((150 : ℚ) + 30 * -4) * 1 = 30 := by norm_num
  rw [h30]
  decide

/-- Under `cfgOne` and `smallRng` the raw transaction list starts with the
transaction generated at counter 1 from draw position 1. -/
lemma raw_one_shape : ∃ tl, generateFactTransactionsRaw cfgOne smallRng
    = (genTxn (generateDimProduct cfgOne smallRng) 1 0 smallRng 1 1).1 :: tl := by
  unfold generateFactTransactionsRaw
  rw [storeDayUnits_one]
  simp only [genUnits]
  rw [count_one]
  exact ⟨_, rfl⟩

lemma raw_one_length : (generateFactTransactionsRaw cfgOne smallRng).length = 50 := by
  unfold generateFactTransactionsRaw
  rw [storeDayUnits_one]
  simp only [genUnits]
  rw [count_one, List.length_append, genTxns_length]
  simp [genUnits]

lemma sample_one : generateFactTransactions cfgOne smallRng
    = generateFactTransactionsRaw cfgOne smallRng := by
  unfold generateFactTransactions
  dsimp only
  rw [if_neg]
  rw [raw_one_length]
  norm_num [sampleCap]

/-- The first transaction of the `smallRng` run has its id rewritten by the
duplicate branch to `1 - 1 = 0`. -/
lemma head_id_one :
    ((genTxn (generateDimProduct cfgOne smallRng) 1 0 smallRng 1 1).1).transaction_id = 0 := by
  rw [genTxn_id]
  rw [if_pos (by norm_num [smallRng, zeroRng])]
  norm_num [randIntM, smallRng, zeroRng]

-- ── C4 ──

/-- Claim C4: for every row of the generated transaction fact table (orphan
and duplicate rows included, before and after sampling), `net_sales_value`
equals `quantity * unit_price` rounded to two decimals, with quantity and
unit price the row's own fields. -/
theorem c4_net_sales (cfg : Config) (r : Rng) (row : TxnRow)
    (h : row ∈ generateFactTransactions cfg r) :
    row.net_sales_value = round2 ((row.quantity : ℚ) * row.unit_price) := by
  have hraw := mem_of_sampled cfg r row h
  obtain ⟨s, d, p, t, rfl⟩ :=
    mem_genUnits (generateDimProduct cfg r) cfg r (storeDayUnits cfg) 0 1 row hraw
  exact genTxn_net _ s d r p t

theorem c4_net_sales_witness :
    ((genTxn (generateDimProduct cfgOne smallRng) 1 0 smallRng 1 1).1
        ∈ generateFactTransactions cfgOne smallRng)
    ∧ ((genTxn (generateDimProduct cfgOne smallRng) 1 0 smallRng 1 1).1).net_sales_value
      = round2
          ((((genTxn (generateDimProduct cfgOne smallRng) 1 0 smallRng 1 1).1).quantity : ℚ)
            * ((genTxn (generateDimProduct cfgOne smallRng) 1 0 smallRng 1 1).1).unit_price) := by
  have hm : (genTxn (generateDimProduct cfgOne smallRng) 1 0 smallRng 1 1).1
      ∈ generateFactTransactions cfgOne smallRng := by
    rw [sample_one]
    obtain ⟨tl, htl⟩ := raw_one_shape
    rw [htl]
    exact List.mem_cons_self _ _
  exact ⟨hm, c4_net_sales cfgOne smallRng _ hm⟩

-- ── C6 ──

/-- Claim C6 counterexample: under `cfgOne` and `smallRng` the very first
transaction (index 0, counter 1) has its id rewritten to 0 by the duplicate
branch, yet there is no previously generated transaction at all, so the
rewritten id collides with nothing. -/
theorem c6_counterexample :
    ¬ (∀ (cfg : Config) (r : Rng) (i : ℕ),
        i < (generateFactTransactionsRaw cfg r).length →
        ((generateFactTransactionsRaw cfg r).getD i defaultTxn).transaction_id
          ≠ ((1 + i : ℕ) : ℤ) →
        ∃ j, j < i ∧
          ((generateFactTransactionsRaw cfg r).getD j defaultTxn).transaction_id
            = ((generateFactTransactionsRaw cfg r).getD i defaultTxn).transaction_id) := by
  intro hcl
  obtain ⟨tl, htl⟩ := raw_one_shape
  have hlen : 0 < (generateFactTransactionsRaw cfgOne smallRng).length := by
    rw [htl]
    simp
  have hid : ((generateFactTransactionsRaw cfgOne smallRng).getD 0 defaultTxn).transaction_id
      = 0 := by
    rw [htl]
    simpa using head_id_one
  obtain ⟨j, hj, -⟩ := hcl cfgOne smallRng 0 hlen (by rw [hid]; norm_num)
  exact Nat.not_lt_zero j hj

/-- Claim C6 (amended): a transaction whose id was rewritten by the
duplicate-injection branch carries id `(counter) - k` for some `k ∈ [1, 9]`
(the counter of the `i`-th generated transaction being `1 + i`); this equals
the id of a previously generated transaction only when that earlier
transaction exists (`k ≤ i`) and was not itself rewritten — early transactions
can receive non-positive ids that collide with nothing. -/
theorem c6_duplicate_ids (cfg : Config) (r : Rng) (i : ℕ)
    (hi : i < (generateFactTransactionsRaw cfg r).length)
    (hrw : ((generateFactTransactionsRaw cfg r).getD i defaultTxn).transaction_id
        ≠ ((1 + i : ℕ) : ℤ)) :
    (∃ k : ℕ, 1 ≤ k ∧ k ≤ 9 ∧
      ((generateFactTransactionsRaw cfg r).getD i defaultTxn).transaction_id
        = ((1 + i : ℕ) : ℤ) - k)
    ∧ (∀ k : ℕ, 1 ≤ k → k ≤ i →
        ((generateFactTransactionsRaw cfg r).getD i defaultTxn).transaction_id
          = ((1 + i : ℕ) : ℤ) - k →
        ((generateFactTransactionsRaw cfg r).getD (i - k) defaultTxn).transaction_id
          = ((1 + (i - k) : ℕ) : ℤ) →
        ∃ j, j < i ∧
          ((generateFactTransactionsRaw cfg r).getD j defaultTxn).transaction_id
            = ((generateFactTransactionsRaw cfg r).getD i defaultTxn).transaction_id) := by
  constructor
  · rcases raw_tidOk cfg r i hi with h | h
    · exact absurd h hrw
    · exact h
  · intro k hk1 hki heq hprev
    refine ⟨i - k, by omega, ?_⟩
    rw [hprev, heq]
    have : ((i - k : ℕ) : ℤ) = (i : ℤ) - (k : ℤ) := by
      omega
    push_cast
    omega

theorem c6_duplicate_ids_witness :
    ∃ k : ℕ, 1 ≤ k ∧ k ≤ 9 ∧
      ((generateFactTransactionsRaw cfgOne smallRng).getD 0 defaultTxn).transaction_id
        = ((1 + 0 : ℕ) : ℤ) - k := by
  obtain ⟨tl, htl⟩ := raw_one_shape
  have hlen : 0 < (generateFactTransactionsRaw cfgOne smallRng).length := by
    rw [htl]
    simp
  have hid : ((generateFactTransactionsRaw cfgOne smallRng).getD 0 defaultTxn).transaction_id
      = 0 := by
    rw [htl]
    simpa using head_id_one
  exact (c6_duplicate_ids cfgOne smallRng 0 hlen (by rw [hid]; norm_num)).1

-- ── Loader lemmas ──

lemma lastWrite_eq_none (fs : FileSystem) :
    ∀ (es : List LoadEntry) (k : String × String), k ∉ es.map entryKey →
      lastWrite fs es k = none := by
  intro es
  induction es with
  | nil => intro k _; rfl
  | cons e es ih =>
    intro k hk
    simp only [List.map_cons, List.mem_cons, not_or] at hk
    rw [lastWrite, ih k hk.2, if_neg hk.1]

lemma lastWrite_of_mem (fs : FileSystem) :
    ∀ (es : List LoadEntry), (es.map entryKey).Nodup →
      ∀ e ∈ es, ∀ t, fs e.path = some t → lastWrite fs es (entryKey e) = some t := by
  intro es
  induction es with
  | nil => intro _ e he; simp at he
  | cons e' es ih =>
    intro hnd e he t ht
    simp only [List.map_cons, List.nodup_cons] at hnd
    rcases List.mem_cons.mp he with rfl | he'
    · rw [lastWrite, lastWrite_eq_none fs es _ hnd.1, if_pos rfl, ht]
    · rw [lastWrite, ih hnd.2 e he' t ht]

lemma runLoaderFrom_messages (fs : FileSystem) :
    ∀ (es : List LoadEntry) (st : LoaderState),
      (runLoaderFrom fs st es).messages = st.messages ++ es.map (msgOf fs) := by
  intro es
  induction es with
  | nil => intro st; simp [runLoaderFrom]
  | cons e es ih =>
    intro st
    rw [runLoaderFrom, List.foldl_cons]
    rw [show List.foldl (loadStep fs) (loadStep fs st e) es
      = runLoaderFrom fs (loadStep fs st e) es from rfl, ih]
    cases hfs : fs e.path <;> simp [loadStep, hfs, msgOf]

lemma runLoaderFrom_total (fs : FileSystem) :
    ∀ (es : List LoadEntry) (st : LoaderState),
      (runLoaderFrom fs st es).total = st.total + (es.map (rowsOf fs)).sum := by
  intro es
  induction es with
  | nil => intro st; simp [runLoaderFrom]
  | cons e es ih =>
    intro st
    rw [runLoaderFrom, List.foldl_cons]
    rw [show List.foldl (loadStep fs) (loadStep fs st e) es
      = runLoaderFrom fs (loadStep fs st e) es from rfl, ih]
    cases hfs : fs e.path with
    | none => simp [loadStep, hfs, rowsOf]
    | some t => simp [loadStep, hfs, rowsOf]; omega

lemma runLoaderFrom_db (fs : FileSystem) :
    ∀ (es : List LoadEntry) (st : LoaderState) (k : String × String),
      (runLoaderFrom fs st es).db k = (lastWrite fs es k).elim (st.db k) some := by
  intro es
  induction es with
  | nil => intro st k; rfl
  | cons e es ih =>
    intro st k
    rw [runLoaderFrom, List.foldl_cons]
    rw [show List.foldl (loadStep fs) (loadStep fs st e) es
      = runLoaderFrom fs (loadStep fs st e) es from rfl, ih]
    cases hlw : lastWrite fs es k with
    | some t => simp [lastWrite, hlw]
    | none =>
      simp only [lastWrite, hlw, Option.elim]
      cases hfs : fs e.path with
      | some t =>
        by_cases hk : k = entryKey e
        · simp [loadStep, hfs, dbUpdate, hk]
        · simp [loadStep, hfs, dbUpdate, hk]
      | none =>
        simp [loadStep, hfs]

-- ── C8 ──

/-- Claim C8: for every subset of declared source files missing at load time,
the loader emits exactly one message per declared entry — a warning for each
missing file, a load report for each present one — still loads every declared
table whose source file exists, and the reported total is the sum of the row
counts of exactly the tables actually loaded (missing entries contribute 0). -/
theorem c8_loader_missing_files (fs : FileSystem) (db : Database) :
    ((runLoader fs db).messages = declaredTables.map (msgOf fs))
    ∧ (∀ e ∈ declaredTables, ∀ t, fs e.path = some t →
        (runLoader fs db).db (entryKey e) = some t)
    ∧ ((runLoader fs db).total = (declaredTables.map (rowsOf fs)).sum) := by
  refine ⟨?_, ?_, ?_⟩
  · rw [runLoader, runLoaderFrom_messages]
    rfl
  · intro e he t ht
    rw [runLoader, runLoaderFrom_db,
      lastWrite_of_mem fs declaredTables (by simp [declaredTables, entryKey]) e he t ht]
    rfl
  · rw [runLoader, runLoaderFrom_total]
    simp

theorem c8_loader_missing_files_witness :
    (runLoader fsOneFile dbEmpty).db
        (entryKey ⟨"data/generated/dim_date.csv", "dim_date", "bronze"⟩)
      = some [["20230101", "2023-01-01"]] :=
  (c8_loader_missing_files fsOneFile dbEmpty).2.1
    ⟨"data/generated/dim_date.csv", "dim_date", "bronze"⟩
    (List.mem_cons_self _ _) _ (by simp [fsOneFile])

-- ── C9 ──

/-- Claim C9: running the loader twice on an unchanged file system leaves
every target table identical to the state after a single run — full-replace
loading is idempotent on the database. -/
theorem c9_loader_idempotent (fs : FileSystem) (db : Database) :
    runLoaderDb fs (runLoaderDb fs db) = runLoaderDb fs db := by
  funext k
  show (runLoader fs (runLoaderDb fs db)).db k = (runLoader fs db).db k
  rw [runLoader, runLoader, runLoaderFrom_db, runLoaderFrom_db]
  cases hlw : lastWrite fs declaredTables k with
  | some t => rfl
  | none =>
    show runLoaderDb fs db k = db k
    rw [runLoaderDb, runLoader, runLoaderFrom_db, hlw]
    rfl

-- ── C10 ──

/-- Claim C10: the product dimension always has `22 * (N_PRODUCTS // 20)` rows
with consecutive ids `1..n` — 550 rows under the configured `N_PRODUCTS =
500`, more than the configured product count — and the transaction generator's
product-id draw (`randint(1, len(dim_product) + 1)`, embedded as
`drawProductId`) ranges over `1..len(dim_product)`: with a 550-row table every
draw lands in `[1, 550]` and the value `550 > N_PRODUCTS` is attainable. -/
theorem c10_product_dimension :
    (∀ (cfg : Config) (r : Rng),
      (generateDimProduct cfg r).length = 22 * (cfg.nProducts / 20))
    ∧ (∀ (cfg : Config) (r : Rng),
        (generateDimProduct cfg r).map (fun p => p.product_id)
          = List.range' 1 (22 * (cfg.nProducts / 20)))
    ∧ (∀ r : Rng, (generateDimProduct realCfg r).length = 550)
    ∧ (∀ (products : List ProductRow) (r : Rng) (p : ℕ), products.length = 550 →
        1 ≤ drawProductId products r p ∧ drawProductId products r p ≤ 550)
    ∧ (∀ products : List ProductRow, products.length = 550 →
        ∃ (r : Rng) (p : ℕ), drawProductId products r p = 550) := by
  have hlen : ∀ (cfg : Config) (r : Rng),
      (generateDimProduct cfg r).length = 22 * (cfg.nProducts / 20) := by
    intro cfg r
    rw [generateDimProduct]
    simp only [List.length_map, List.length_range]
    rw [show subcatsFlat.length = 22 from rfl]
  refine ⟨hlen, ?_, ?_, ?_, ?_⟩
  · intro cfg r
    rw [generateDimProduct]
    simp only [List.map_map]
    rw [show subcatsFlat.length = 22 from rfl]
    rw [List.range'_eq_map_range]
    apply List.map_congr_left
    intro i _
    show i + 1 = 1 + i
    omega
  · intro r
    rw [hlen]
    rfl
  · intro products r p hp
    rw [drawProductId, randIntM, hp]
    have := Nat.mod_lt (r.k p) (show 0 < 550 + 1 - 1 by norm_num)
    omega
  · intro products hp
    refine ⟨⟨fun _ => 0, fun _ => 0, fun _ => 549, fun _ => 0, fun _ => 0⟩, 0, ?_⟩
    rw [drawProductId, randIntM, hp]
    decide

theorem c10_product_dimension_witness :
    (1 ≤ drawProductId (List.replicate 550 defaultProduct) zeroRng 0
      ∧ drawProductId (List.replicate 550 defaultProduct) zeroRng 0 ≤ 550)
    ∧ ∃ (r : Rng) (p : ℕ),
        drawProductId (List.replicate 550 defaultProduct) r p = 550 :=
  ⟨c10_product_dimension.2.2.2.1 _ zeroRng 0 (by simp),
   c10_product_dimension.2.2.2.2 _ (by simp)⟩

end RetailKPI
